import Mathlib

/-!
# Verification of the vincent image-generation client layer

Shallow embedding of the image-generation client layer of the `vincent`
repository: the error taxonomy (`src/utils/errors.ts`), the retry/backoff
engines of the Pollinations and HuggingFace clients
(`src/image/api-client.ts`, `src/image/huggingface-client.ts`), the
response handling of the unauthenticated Pollinations backend, the
mock/failure-simulation backend (`src/image/mock-generator.ts`), the
Gemini client's API-key resolution, and the multi-mode generator facade
(`ImageGenerator` in `src/image/huggingface-client.ts`).

JavaScript exceptions are embedded as `Except` values; `async` effects
(sleeps, file writes, network responses) are made explicit: the retry
engine returns the list of sleep durations it performed, backends take
their network outcome as an explicit attempt-indexed argument, and the
mock backend's `Math.random()` draws are supplied as explicit oracle
inputs.  Machine numbers in this layer are small non-negative integers
(HTTP statuses, millisecond delays, attempt counters), embedded as `Nat`.
-/

namespace Vincent

/-! ## Error taxonomy (src/utils/errors.ts)

The source builds a class hierarchy `Error ← VincentError ← {FileError,
APIError, NetworkError, ConfigError}`, with `RateLimitError ← APIError`
and `{NetworkTimeoutError, ConnectionError} ← NetworkError`.  We embed an
error value as its dynamic class tag plus its fields; `instanceof` checks
become predicates on the tag. -/

inductive ErrKind where
  | plain        -- a bare JS `Error`
  | vincent
  | file
  | api
  | network
  | config
  | rateLimit    -- extends APIError
  | netTimeout   -- extends NetworkError
  | connection   -- extends NetworkError
  deriving DecidableEq, Repr

structure VErr where
  kind : ErrKind
  msg : String
  retryAfter : Option Nat := none
  timeoutS : Option Nat := none
  deriving DecidableEq, Repr

instance {ε α : Type} [DecidableEq ε] [DecidableEq α] : DecidableEq (Except ε α) :=
  fun a b =>
    match a, b with
    | Except.ok x, Except.ok y =>
        if h : x = y then isTrue (by rw [h])
        else isFalse (by intro hh; cases hh; exact h rfl)
    | Except.error x, Except.error y =>
        if h : x = y then isTrue (by rw [h])
        else isFalse (by intro hh; cases hh; exact h rfl)
    | Except.ok _, Except.error _ => isFalse (by intro hh; cases hh)
    | Except.error _, Except.ok _ => isFalse (by intro hh; cases hh)

/-- `e instanceof APIError` (true also for the `RateLimitError` subclass). -/
def VErr.isAPIError (e : VErr) : Bool :=
  e.kind = ErrKind.api || e.kind = ErrKind.rateLimit

/-- `e instanceof NetworkError` (true also for subclasses). -/
def VErr.isNetworkError (e : VErr) : Bool :=
  e.kind = ErrKind.network || e.kind = ErrKind.netTimeout || e.kind = ErrKind.connection

def APIError (msg : String) : VErr := { kind := ErrKind.api, msg := msg }

def NetworkError (msg : String) : VErr := { kind := ErrKind.network, msg := msg }

def ConnectionError (msg : String := "Could not connect to image generation service") : VErr :=
  { kind := ErrKind.connection, msg := msg }

def NetworkTimeoutError (timeout : Nat) : VErr :=
  { kind := ErrKind.netTimeout
    msg := "Request timed out after " ++ toString timeout ++ "s"
    timeoutS := some timeout }

def RateLimitError (retryAfter : Option Nat) : VErr :=
  { kind := ErrKind.rateLimit
    msg := match retryAfter with
      | some t => "Rate limit exceeded, retry after " ++ toString t ++ "s"
      | none => "Rate limit exceeded. Please try again later."
    retryAfter := retryAfter }

def PlainError (msg : String) : VErr := { kind := ErrKind.plain, msg := msg }

/-- `String.includes` of JavaScript: does `pat` occur as a contiguous
substring of `s`? -/
def strIncludes (s pat : String) : Bool :=
  (List.range (s.toList.length + 1)).any fun i => pat.toList.isPrefixOf (s.toList.drop i)

/-! ## Retry / backoff engine
(`executeWithRetry` in src/image/api-client.ts lines 211-241 and
src/image/huggingface-client.ts lines 340-371)

Both engines are the same loop, differing only in the predicate deciding
which caught errors are re-raised without retry.  The wrapped operation is
embedded as an attempt-indexed outcome `op : Nat → Except VErr α`; the run
records the final result, how many times `op` was invoked, and the list of
sleep durations (`setTimeout` waits) performed between attempts. -/

structure RetryConfig where
  maxAttempts : Nat
  delays : List Nat
  timeoutMs : Nat
  deriving DecidableEq, Repr

/-- `this.retryConfig.delays[attempt - 1] || this.retryConfig.delays[this.retryConfig.delays.length - 1]`:
an out-of-range (or zero, which is falsy) entry falls back to the last
configured delay; if that is also absent, `setTimeout(_, undefined)` waits 0. -/
def delayFor (delays : List Nat) (attempt : Nat) : Nat :=
  match delays.get? (attempt - 1) with
  | some d => if d = 0 then (delays.getLast?).getD 0 else d
  | none => (delays.getLast?).getD 0

/-- Outcome of one `executeWithRetry` run. -/
structure RetryRun (α : Type) where
  result : Except VErr α
  invocations : Nat
  sleeps : List Nat
  deriving Repr

/-- Pollinations engine (api-client.ts line 221):
`error instanceof APIError && !error.message.includes('Server error')`
means do not retry. -/
def pollNonRetryable (e : VErr) : Bool :=
  e.isAPIError && !(strIncludes e.msg "Server error")

/-- HuggingFace engine (huggingface-client.ts line 350):
`error instanceof APIError && !error.message.includes('queue') && !error.message.includes('unavailable')`
means do not retry. -/
def hfNonRetryable (e : VErr) : Bool :=
  e.isAPIError && !(strIncludes e.msg "queue") && !(strIncludes e.msg "unavailable")

/-- The `for (let attempt = 1; attempt <= maxAttempts; attempt++)` loop,
with `fuel = maxAttempts - attempt + 1` remaining iterations.  Every value
thrown inside this layer is an `Error`, so `lastError` always equals the
error just caught; when the loop exits without returning (only possible
when `maxAttempts = 0`) the source throws `lastError || new Error('All retry attempts failed')`. -/
def retryFrom (nonRetryable : VErr → Bool) (cfg : RetryConfig)
    (op : Nat → Except VErr α) : Nat → Nat → Option VErr → RetryRun α
  | _attempt, 0, last =>
      { result := Except.error (last.getD (PlainError "All retry attempts failed"))
        invocations := 0
        sleeps := [] }
  | attempt, fuel + 1, _last =>
      match op attempt with
      | Except.ok v => { result := Except.ok v, invocations := 1, sleeps := [] }
      | Except.error e =>
          if nonRetryable e then
            { result := Except.error e, invocations := 1, sleeps := [] }
          else if attempt = cfg.maxAttempts then
            { result := Except.error e, invocations := 1, sleeps := [] }
          else
            let d := delayFor cfg.delays attempt
            let rest := retryFrom nonRetryable cfg op (attempt + 1) fuel (some e)
            { result := rest.result
              invocations := rest.invocations + 1
              sleeps := d :: rest.sleeps }

def executeWithRetry (nonRetryable : VErr → Bool) (cfg : RetryConfig)
    (op : Nat → Except VErr α) : RetryRun α :=
  retryFrom nonRetryable cfg op 1 cfg.maxAttempts none

/-- Default retry configuration of the Pollinations client. -/
def pollDefaultRetryConfig : RetryConfig :=
  { maxAttempts := 3, delays := [1000, 2000, 4000], timeoutMs := 30000 }

/-- Default retry configuration of the HuggingFace client. -/
def hfDefaultRetryConfig : RetryConfig :=
  { maxAttempts := 3, delays := [2000, 5000, 10000], timeoutMs := 60000 }

/-! ## Unauthenticated (Pollinations) backend response handling
(src/image/api-client.ts lines 151-164)

The single attempt issues one GET and then checks the response.  We embed
the HTTP response as a status plus an optional byte body (axios delivers
an `arraybuffer`; a missing body is `none`) and the status/body checks as
a pure function from the response to the attempt's outcome. -/

structure HttpResponse where
  status : Nat
  data : Option (List Nat)
  deriving DecidableEq, Repr

/-- `if (response.status !== 200) throw APIError(...)`;
`if (!response.data || response.data.byteLength === 0) throw APIError('No image data received from API')`;
else `return Buffer.from(response.data)`. -/
def pollHandleResponse (r : HttpResponse) : Except VErr (List Nat) :=
  if r.status ≠ 200 then
    Except.error (APIError ("API request failed with status " ++ toString r.status))
  else
    match r.data with
    | none => Except.error (APIError "No image data received from API")
    | some d =>
        if d.length = 0 then Except.error (APIError "No image data received from API")
        else Except.ok d

/-! ## Gemini (authenticated) backend API-key resolution
(src/image/api-client.ts lines 83-89 and src/image/generator.ts lines 131-138)

`const apiKey = this.apiKey || process.env.GEMINI_API_KEY;
 if (!apiKey) throw new APIError('No API key provided');
 return apiKey;`
The constructor-supplied key and the environment variable are both
explicit inputs; an unset environment variable is `none`, and JavaScript's
falsiness makes an empty string behave like an absent one. -/

def getApiKey (ctorKey : String) (envKey : Option String) : Except VErr String :=
  let apiKey : Option String := if ctorKey = "" then envKey else some ctorKey
  match apiKey with
  | none => Except.error (APIError "No API key provided")
  | some k => if k = "" then Except.error (APIError "No API key provided") else Except.ok k

/-! ## Mock / failure-simulation backend (src/image/mock-generator.ts)

State: the failure configuration plus the per-fingerprint attempt-counter
map (`attemptCounts : Map<string, number>`), embedded as a total function
with default 0 (`this.attemptCounts.get(requestKey) || 0`).  The two
`Math.random()` draws of an invocation (the Bernoulli trial of `random`
mode and the uniform choice among the four failure kinds) are supplied as
an explicit oracle. -/

inductive FailureMode where
  | nofail       -- 'none'
  | connection
  | timeout
  | ratelimit
  | server
  | random
  deriving DecidableEq, Repr

structure MockState where
  failureMode : FailureMode
  failureRate : Rat            -- JS float in [0,1]; never computed with here
  maxAttempts : Nat            -- `maxAttempts` of MockFailureConfig
  attemptCounts : String → Nat

/-- The per-invocation randomness: `randFail` is the truth value of
`Math.random() < (this.failureConfig.failureRate || 0.5)` and `randKind`
is `Math.floor(Math.random() * types.length)` over
`['connection', 'timeout', 'ratelimit', 'server']`. -/
structure SimOracle where
  randFail : Bool
  randKind : Fin 4
  deriving DecidableEq, Repr

/-- `const requestKey = ` backtick-template `${cardId}-${question}`. -/
def requestKey (cardId : Nat) (question : String) : String :=
  toString cardId ++ "-" ++ question

/-- `getRandomFailureType`: uniform choice among the four concrete kinds. -/
def getRandomFailureType (i : Fin 4) : FailureMode :=
  match i with
  | 0 => FailureMode.connection
  | 1 => FailureMode.timeout
  | 2 => FailureMode.ratelimit
  | 3 => FailureMode.server

/-- `this.failureConfig.maxAttempts || 1` (a configured 0 is falsy). -/
def effMaxAttempts (s : MockState) : Nat :=
  if s.maxAttempts = 0 then 1 else s.maxAttempts

/-- `simulateNetworkFailure` (mock-generator.ts lines 60-109): returns the
thrown error (if any) and the updated state. -/
def simulateNetworkFailure (o : SimOracle) (cardId : Nat) (question : String)
    (s : MockState) : Except VErr Unit × MockState :=
  if s.failureMode = FailureMode.nofail then
    (Except.ok (), s)
  else
    let key := requestKey cardId question
    let currentAttempt := s.attemptCounts key + 1
    let s' := { s with attemptCounts := Function.update s.attemptCounts key currentAttempt }
    if effMaxAttempts s ≤ currentAttempt then
      (Except.ok (), s')
    else
      let shouldFail := if s.failureMode = FailureMode.random then o.randFail else true
      if !shouldFail then
        (Except.ok (), s')
      else
        let failureType :=
          if s.failureMode = FailureMode.random then getRandomFailureType o.randKind
          else s.failureMode
        match failureType with
        | FailureMode.connection =>
            (Except.error (ConnectionError "Mock: Could not connect to image generation service"), s')
        | FailureMode.timeout =>
            (Except.error (NetworkTimeoutError 30), s')
        | FailureMode.ratelimit =>
            (Except.error (RateLimitError (some 2)), s')
        | FailureMode.server =>
            (Except.error (APIError "Mock: Server error: 500"), s')
        | _ =>
            (Except.error (ConnectionError "Mock: Unknown network error"), s')

/-- Base64 alphabet value of one character; `'='` padding and any other
character contribute no bits. -/
def base64CharVal (c : Char) : Option Nat :=
  if 'A' ≤ c ∧ c ≤ 'Z' then some (c.toNat - 65)
  else if 'a' ≤ c ∧ c ≤ 'z' then some (c.toNat - 97 + 26)
  else if '0' ≤ c ∧ c ≤ '9' then some (c.toNat - 48 + 52)
  else if c = '+' then some 62
  else if c = '/' then some 63
  else none

/-- Regroup 6-bit base64 values into 8-bit bytes. -/
def b64Bytes : List Nat → List Nat
  | a :: b :: c :: d :: rest =>
      (a * 4 + b / 16) :: ((b % 16) * 16 + c / 4) :: ((c % 4) * 64 + d) :: b64Bytes rest
  | [a, b] => [a * 4 + b / 16]
  | [a, b, c] => [a * 4 + b / 16, (b % 16) * 16 + c / 4]
  | _ => []

/-- `Buffer.from(s, 'base64')`. -/
def base64Decode (s : String) : List Nat :=
  b64Bytes (s.toList.filterMap base64CharVal)

/-- The literal placeholder written by the mock backend
(mock-generator.ts lines 47-50): a 1x1 PNG, base64-encoded in the source. -/
def mockImageB64 : String :=
  "iVBORw0KGgoAAAANSUhEUgAAAAEAAAABCAYAAAAfFcSJAAAADUlEQVR42mNkYPhfDwAChwGA60e6kgAAAABJRU5ErkJggg=="

def mockImageData : List Nat := base64Decode mockImageB64

/-- `cardId.toString().padStart(3, '0')`. -/
def padStart (n : Nat) (c : Char) (s : String) : String :=
  if s.length < n then String.mk (List.replicate (n - s.length) c) ++ s else s

/-- `path.join(outputDir, 'card-' + padded + '.png')` for the file names
this layer produces (no separator normalization is needed for the inputs
considered here). -/
def imageFilePath (cardId : Nat) (outputDir : String) : String :=
  outputDir ++ "/card-" ++ padStart 3 '0' (toString cardId) ++ ".png"

/-- Outcome of one `generateMockImage` call: the returned path or thrown
error, the file written (path and bytes), and the updated state. -/
structure MockGenOutcome where
  result : Except VErr String
  written : Option (String × List Nat)
  state : MockState

/-- `generateMockImage` (mock-generator.ts lines 38-58): simulate a
failure first; if none is thrown, write the fixed placeholder bytes to
`outputDir/card-XXX.png` and return that path. -/
def generateMockImage (o : SimOracle) (cardId : Nat) (question outputDir : String)
    (s : MockState) : MockGenOutcome :=
  match simulateNetworkFailure o cardId question s with
  | (Except.error e, s') => { result := Except.error e, written := none, state := s' }
  | (Except.ok _, s') =>
      let filePath := imageFilePath cardId outputDir
      { result := Except.ok filePath
        written := some (filePath, mockImageData)
        state := s' }

/-- `setFailureMode(failureMode, failureRate?)` (mock-generator.ts lines
117-124): overwrite the mode, and the rate only when one is given. -/
def setFailureMode (s : MockState) (mode : FailureMode) (rate : Option Rat) : MockState :=
  { s with
    failureMode := mode
    failureRate := match rate with
      | some r => r
      | none => s.failureRate }

/-- `resetAttempts()` (mock-generator.ts lines 127-130): `attemptCounts.clear()`. -/
def resetAttempts (s : MockState) : MockState :=
  { s with attemptCounts := fun _ => 0 }

/-! ## Generator facade
(`ImageGenerator` in src/image/huggingface-client.ts lines 421-513)

`generateImage(cardId, question, answer, outputDir)` builds the prompt,
dispatches on the mode fixed at construction, and wraps everything in one
`try/catch` that converts any thrown error into a failed
`GenerationResult`.  The network behavior of the real backends is an
explicit attempt-indexed outcome `op` (the body of the retry-wrapped
operation); the prompt text itself is opaque to this layer and does not
influence control flow, so it is not a parameter of the embedding. -/

structure GenerationResult where
  cardId : Nat
  success : Bool
  imagePath : Option String := none
  error : Option String := none
  deriving DecidableEq, Repr

inductive Mode where
  | mock
  | huggingface
  | pollinations
  deriving DecidableEq, Repr

/-- Outcome of one facade `generateImage` call: the returned result, the
number of times the selected backend operation was invoked, and the mock
backend's state after the call (unchanged in the real modes). -/
structure FacadeRun where
  result : GenerationResult
  backendInvocations : Nat
  mockState : MockState

/-- `ImageGenerator.generateImage` (huggingface-client.ts lines 452-501).
In mock mode the facade calls `this.mockGenerator.generateMockImage`
directly — not through any `executeWithRetry`; in the real modes the
client's `generateImage` is the retry engine applied to the per-attempt
operation `op`.  On success the bytes are saved under
`outputDir/card-XXX.png`; any thrown error is caught and becomes
`{ cardId, success: false, error: error.message }`. -/
def facadeGenerateImage (mode : Mode) (cfg : RetryConfig)
    (op : Nat → Except VErr (List Nat)) (o : SimOracle) (s : MockState)
    (cardId : Nat) (question _answer outputDir : String) : FacadeRun :=
  match mode with
  | Mode.mock =>
      let r := generateMockImage o cardId question outputDir s
      match r.result with
      | Except.ok imagePath =>
          { result := { cardId := cardId, success := true, imagePath := some imagePath }
            backendInvocations := 1
            mockState := r.state }
      | Except.error e =>
          { result := { cardId := cardId, success := false, error := some e.msg }
            backendInvocations := 1
            mockState := r.state }
  | Mode.huggingface =>
      let run := executeWithRetry hfNonRetryable cfg op
      match run.result with
      | Except.ok _ =>
          { result := { cardId := cardId, success := true
                        imagePath := some (imageFilePath cardId outputDir) }
            backendInvocations := run.invocations
            mockState := s }
      | Except.error e =>
          { result := { cardId := cardId, success := false, error := some e.msg }
            backendInvocations := run.invocations
            mockState := s }
  | Mode.pollinations =>
      let run := executeWithRetry pollNonRetryable cfg op
      match run.result with
      | Except.ok _ =>
          { result := { cardId := cardId, success := true
                        imagePath := some (imageFilePath cardId outputDir) }
            backendInvocations := run.invocations
            mockState := s }
      | Except.error e =>
          { result := { cardId := cardId, success := false, error := some e.msg }
            backendInvocations := run.invocations
            mockState := s }

/-- Modelled from the spec: the retryability marking of the
`ClassifiedError` taxonomy (spec §3 data model and §4.1): Connection,
Timeout, RateLimit and ServerError are marked retryable; ClientError is
terminal.  (The source carries no such flag on its error classes — the
engines re-derive retryability from `instanceof` and message substrings —
so this marking exists only in the spec's words; `ServerError` is realised
in the source as a `NetworkError` whose message says "Server error".) -/
def specRetryable (e : VErr) : Bool :=
  e.kind = ErrKind.connection || e.kind = ErrKind.netTimeout ||
    e.kind = ErrKind.rateLimit || e.kind = ErrKind.network

/-! ## Concrete fixtures used by the witnesses and counterexamples -/

/-- Mock state as configured by the retry-simulation tests:
`{ failureMode: 'connection', maxAttempts: 3 }`. -/
def mockConnState : MockState :=
  { failureMode := FailureMode.connection
    failureRate := 0
    maxAttempts := 3
    attemptCounts := fun _ => 0 }

/-- An arbitrary oracle; `connection` mode never consults it. -/
def mockOracle : SimOracle := { randFail := false, randKind := 0 }

def mockRun1 : MockGenOutcome := generateMockImage mockOracle 7 "Q" "/tmp/out" mockConnState

def mockRun2 : MockGenOutcome := generateMockImage mockOracle 7 "Q" "/tmp/out" mockRun1.state

def mockRun3 : MockGenOutcome := generateMockImage mockOracle 7 "Q" "/tmp/out" mockRun2.state

/-- A backend that raises `RateLimitError(retryAfter = 5)` on its first
invocation and would succeed on any later one. -/
def rlOp : Nat → Except VErr (List Nat) :=
  fun a => if a = 1 then Except.error (RateLimitError (some 5)) else Except.ok [7]

/-- A backend that raises `RateLimitError(retryAfter = 5)` on its first
invocation and succeeds on its second. -/
def rlOp2 : Nat → Except VErr (List Nat) :=
  fun a => if a < 2 then Except.error (RateLimitError (some 5)) else Except.ok [42]

/-- The Pollinations retry configuration with `maxAttempts = 2`. -/
def cfgTwo : RetryConfig := { maxAttempts := 2, delays := [1000, 2000, 4000], timeoutMs := 30000 }

/-- A backend that always succeeds (its result is irrelevant in mock mode,
where the facade never consults `op`). -/
def mockOkOp : Nat → Except VErr (List Nat) := fun _ => Except.ok []

/-- A backend that always fails with the 401 classification
`APIError('Invalid API key')` of the authenticated client. -/
def invalidKeyOp : Nat → Except VErr (List Nat) :=
  fun _ => Except.error (APIError "Invalid API key")

/-! ## Helper lemmas about the retry engine -/

/-- If the first attempt fails with an error the engine classifies
non-retryable, the run is one invocation, no sleep, re-raising that error. -/
theorem retry_once_of_nonRetryable {α : Type} (nr : VErr → Bool) (cfg : RetryConfig)
    (op : Nat → Except VErr α) (e : VErr) (hm : 1 ≤ cfg.maxAttempts)
    (hop : op 1 = Except.error e) (hnr : nr e = true) :
    executeWithRetry nr cfg op = ⟨Except.error e, 1, []⟩ := by
  obtain ⟨m, hm'⟩ : ∃ m, cfg.maxAttempts = m + 1 := ⟨cfg.maxAttempts - 1, by omega⟩
  unfold executeWithRetry
  rw [hm']
  unfold retryFrom
  rw [hop]
  simp [hnr]

/-- Any run with positive fuel invokes the backend at least once. -/
theorem retryFrom_invocations_pos {α : Type} (nr : VErr → Bool) (cfg : RetryConfig)
    (op : Nat → Except VErr α) (attempt fuel : Nat) (last : Option VErr) (hf : 1 ≤ fuel) :
    1 ≤ (retryFrom nr cfg op attempt fuel last).invocations := by
  obtain ⟨n, rfl⟩ : ∃ n, fuel = n + 1 := ⟨fuel - 1, by omega⟩
  unfold retryFrom
  cases hop : op attempt with
  | ok v => simp
  | error e =>
      by_cases h1 : nr e = true
      · simp [h1]
      · by_cases h2 : attempt = cfg.maxAttempts
        · simp [h1, h2]
        · simp [h1, h2]

/-- With at least two attempts configured, a retryable failure of the
first attempt leads to at least a second invocation. -/
theorem retry_retries_after_retryable {α : Type} (nr : VErr → Bool) (cfg : RetryConfig)
    (op : Nat → Except VErr α) (e : VErr) (hm : 2 ≤ cfg.maxAttempts)
    (hop : op 1 = Except.error e) (hnr : nr e = false) :
    2 ≤ (executeWithRetry nr cfg op).invocations := by
  obtain ⟨m, hm'⟩ : ∃ m, cfg.maxAttempts = m + 2 := ⟨cfg.maxAttempts - 2, by omega⟩
  unfold executeWithRetry
  rw [hm']
  unfold retryFrom
  rw [hop]
  have hne : ¬(1 = cfg.maxAttempts) := by omega
  have hpos := retryFrom_invocations_pos nr cfg op (1 + 1) (m + 1) (some e) (by omega)
  simp only [hnr, Bool.false_eq_true, if_false, hne, if_neg, not_false_iff]
  omega

/-- Core of the eventual-success property: if every attempt before
`maxAttempts` fails with a fixed engine-retryable error and attempt
`maxAttempts` succeeds, the run from `attempt` with the right fuel
succeeds after exactly `fuel` further invocations. -/
theorem retryFrom_eventual {α : Type} (nr : VErr → Bool) (cfg : RetryConfig)
    (op : Nat → Except VErr α) (e : VErr) (v : α) (hnr : nr e = false)
    (hfail : ∀ a, 1 ≤ a → a < cfg.maxAttempts → op a = Except.error e)
    (hsucc : op cfg.maxAttempts = Except.ok v) :
    ∀ (fuel attempt : Nat) (last : Option VErr),
      1 ≤ fuel → 1 ≤ attempt → attempt + fuel = cfg.maxAttempts + 1 →
      (retryFrom nr cfg op attempt fuel last).result = Except.ok v ∧
      (retryFrom nr cfg op attempt fuel last).invocations = fuel := by
  intro fuel
  induction fuel with
  | zero => intro attempt last h1 _ _; omega
  | succ n ih =>
      intro attempt last _ ha h2
      by_cases hlt : attempt < cfg.maxAttempts
      · have hopa : op attempt = Except.error e := hfail attempt ha hlt
        have hne : ¬(attempt = cfg.maxAttempts) := by omega
        have hn1 : 1 ≤ n := by omega
        have h2' : (attempt + 1) + n = cfg.maxAttempts + 1 := by omega
        have hrec := ih (attempt + 1) (some e) hn1 (by omega) h2'
        unfold retryFrom
        rw [hopa]
        simp [hnr, hne, hrec.1, hrec.2]
      · have heq : attempt = cfg.maxAttempts := by omega
        have hn0 : n = 0 := by omega
        subst heq hn0
        unfold retryFrom
        rw [hsucc]
        simp

/-! ## Claim theorems -/

/-- C2: every `GenerationResult` the facade returns has exactly one of
`imagePath`/`error` populated — `imagePath` set and `error` absent when
`success` is true, `error` set and `imagePath` absent when `success` is
false; never both, never neither. -/
theorem facade_result_exactly_one (mode : Mode) (cfg : RetryConfig)
    (op : Nat → Except VErr (List Nat)) (o : SimOracle) (s : MockState)
    (cardId : Nat) (question answer outputDir : String) :
    ((facadeGenerateImage mode cfg op o s cardId question answer outputDir).result.success = true ∧
     (facadeGenerateImage mode cfg op o s cardId question answer outputDir).result.imagePath.isSome = true ∧
     (facadeGenerateImage mode cfg op o s cardId question answer outputDir).result.error = none) ∨
    ((facadeGenerateImage mode cfg op o s cardId question answer outputDir).result.success = false ∧
     (facadeGenerateImage mode cfg op o s cardId question answer outputDir).result.imagePath = none ∧
     (facadeGenerateImage mode cfg op o s cardId question answer outputDir).result.error.isSome = true) := by
  cases mode with
  | mock =>
      rcases hg : generateMockImage o cardId question outputDir s with ⟨res, w, st⟩
      cases res <;> simp [facadeGenerateImage, hg]
  | huggingface =>
      rcases hr : executeWithRetry hfNonRetryable cfg op with ⟨res, n, sl⟩
      cases res <;> simp [facadeGenerateImage, hr]
  | pollinations =>
      rcases hr : executeWithRetry pollNonRetryable cfg op with ⟨res, n, sl⟩
      cases res <;> simp [facadeGenerateImage, hr]

/-- C1: whatever the selected backend (or its retry engine) raises, the
facade's `generateImage` catches it and returns
`{ cardId, success: false, error: error.message }` — the embedding of the
facade is a total function into `GenerationResult`, so no exception ever
reaches the caller. -/
theorem facade_error_boundary (mode : Mode) (cfg : RetryConfig)
    (op : Nat → Except VErr (List Nat)) (o : SimOracle) (s : MockState)
    (cardId : Nat) (question answer outputDir : String) (e : VErr) :
    (mode = Mode.mock →
      (generateMockImage o cardId question outputDir s).result = Except.error e →
      (facadeGenerateImage mode cfg op o s cardId question answer outputDir).result =
        { cardId := cardId, success := false, imagePath := none, error := some e.msg }) ∧
    (mode = Mode.huggingface →
      (executeWithRetry hfNonRetryable cfg op).result = Except.error e →
      (facadeGenerateImage mode cfg op o s cardId question answer outputDir).result =
        { cardId := cardId, success := false, imagePath := none, error := some e.msg }) ∧
    (mode = Mode.pollinations →
      (executeWithRetry pollNonRetryable cfg op).result = Except.error e →
      (facadeGenerateImage mode cfg op o s cardId question answer outputDir).result =
        { cardId := cardId, success := false, imagePath := none, error := some e.msg }) := by
  refine ⟨?_, ?_, ?_⟩ <;> rintro rfl h
  · rcases hg : generateMockImage o cardId question outputDir s with ⟨res, w, st⟩
    rw [hg] at h
    simp only at h
    subst h
    simp [facadeGenerateImage, hg]
  · rcases hr : executeWithRetry hfNonRetryable cfg op with ⟨res, n, sl⟩
    rw [hr] at h
    simp only at h
    subst h
    simp [facadeGenerateImage, hr]
  · rcases hr : executeWithRetry pollNonRetryable cfg op with ⟨res, n, sl⟩
    rw [hr] at h
    simp only at h
    subst h
    simp [facadeGenerateImage, hr]

/-- C1 witness: in mock mode with `connection` failure simulation the
first call's error is caught and returned as a failed result. -/
theorem facade_error_boundary_witness :
    (facadeGenerateImage Mode.mock pollDefaultRetryConfig mockOkOp mockOracle mockConnState
        7 "Q" "A" "/tmp/out").result =
      { cardId := 7, success := false, imagePath := none
        error := some "Mock: Could not connect to image generation service" } :=
  (facade_error_boundary Mode.mock pollDefaultRetryConfig mockOkOp mockOracle mockConnState
      7 "Q" "A" "/tmp/out"
      (ConnectionError "Mock: Could not connect to image generation service")).1 rfl (by rfl)

/-- C4: an error the engine classifies non-retryable — a ClientError-class
failure, i.e. an `APIError` `instanceof`-wise whose message carries none of
the engine's retryable markers (in this code base the spec's ServerError
category is realised as values whose message says "Server error", and the
queue-based space's transient conditions as messages containing "queue"
or "unavailable"; invalid-key, quota and content-policy failures are plain
`APIError`s) — ends the run after exactly one backend invocation, with no
sleep, re-raising that error, for every configured `maxAttempts ≥ 1`. -/
theorem nonretryable_single_invocation (cfg : RetryConfig) (e : VErr)
    (op : Nat → Except VErr (List Nat)) (hm : 1 ≤ cfg.maxAttempts)
    (hop : op 1 = Except.error e) :
    (pollNonRetryable e = true →
      executeWithRetry pollNonRetryable cfg op = ⟨Except.error e, 1, []⟩) ∧
    (hfNonRetryable e = true →
      executeWithRetry hfNonRetryable cfg op = ⟨Except.error e, 1, []⟩) :=
  ⟨fun h => retry_once_of_nonRetryable pollNonRetryable cfg op e hm hop h,
   fun h => retry_once_of_nonRetryable hfNonRetryable cfg op e hm hop h⟩

/-- C4 witness: `APIError "Invalid API key"` with `maxAttempts = 3` is
invoked once and re-raised by both engines. -/
theorem nonretryable_single_invocation_witness :
    executeWithRetry pollNonRetryable pollDefaultRetryConfig invalidKeyOp =
      ⟨Except.error (APIError "Invalid API key"), 1, []⟩ ∧
    executeWithRetry hfNonRetryable pollDefaultRetryConfig invalidKeyOp =
      ⟨Except.error (APIError "Invalid API key"), 1, []⟩ :=
  ⟨(nonretryable_single_invocation pollDefaultRetryConfig (APIError "Invalid API key")
      invalidKeyOp (by decide) rfl).1 (by decide),
   (nonretryable_single_invocation pollDefaultRetryConfig (APIError "Invalid API key")
      invalidKeyOp (by decide) rfl).2 (by decide)⟩

/-- C3 counterexample: `RateLimitError(retryAfter = 5)` is marked
retryable by the spec's taxonomy (`specRetryable`), yet with
`maxAttempts = 2` around a backend that raises it once and succeeds on the
second invocation, the Pollinations engine re-raises it after a single
invocation instead of returning the success after two: `RateLimitError`
is an `APIError` subclass and its message lacks "Server error". -/
theorem retryable_taxonomy_counterexample :
    specRetryable (RateLimitError (some 5)) = true ∧
    rlOp2 1 = Except.error (RateLimitError (some 5)) ∧
    rlOp2 2 = Except.ok [42] ∧
    (executeWithRetry pollNonRetryable cfgTwo rlOp2).invocations = 1 ∧
    (executeWithRetry pollNonRetryable cfgTwo rlOp2).result =
      Except.error (RateLimitError (some 5)) := by
  refine ⟨by decide, by decide, by decide, by decide, by decide⟩

/-- C3 (amended): for every `N ≥ 1` and every classified error the
*engine* treats as retryable (any non-`APIError`, or an `APIError` whose
message carries the engine's retryable marker — so Connection, Timeout and
ServerError-style failures, but *not* `RateLimitError`, which the engines
re-raise immediately despite the taxonomy's retryable marking), the engine
with `maxAttempts = N` around a backend failing with that error on its
first `N - 1` invocations and succeeding on its `N`-th returns the success
value after exactly `N` invocations. -/
theorem retry_success_after_n_attempts {α : Type} (nr : VErr → Bool)
    (cfg : RetryConfig) (op : Nat → Except VErr α) (e : VErr) (v : α) (N : Nat)
    (hN : 1 ≤ N) (hmax : cfg.maxAttempts = N) (hnr : nr e = false)
    (hfail : ∀ a, 1 ≤ a → a < N → op a = Except.error e)
    (hsucc : op N = Except.ok v) :
    (executeWithRetry nr cfg op).result = Except.ok v ∧
    (executeWithRetry nr cfg op).invocations = N := by
  subst hmax
  exact retryFrom_eventual nr cfg op e v hnr hfail hsucc cfg.maxAttempts 1 none hN
    (by omega) (by omega)

/-- C3 witness: a connection failure on attempts 1 and 2 with success on
attempt 3 yields the success value after exactly 3 invocations. -/
theorem retry_success_after_n_attempts_witness :
    (executeWithRetry pollNonRetryable pollDefaultRetryConfig
        (fun a => if a < 3 then Except.error (ConnectionError) else Except.ok [1])).result =
      Except.ok [1] ∧
    (executeWithRetry pollNonRetryable pollDefaultRetryConfig
        (fun a => if a < 3 then Except.error (ConnectionError) else Except.ok [1])).invocations = 3 :=
  retry_success_after_n_attempts pollNonRetryable pollDefaultRetryConfig
    (fun a => if a < 3 then Except.error (ConnectionError) else Except.ok [1])
    (ConnectionError) [1] 3 (by decide) rfl (by decide)
    (fun a _ h2 => by simp [h2]) (by decide)

/-- C5 counterexample: a backend raising `RateLimitError(retryAfter = 5)`
on its first (non-final: `maxAttempts = 3`) attempt is *not* retried:
the engine performs no sleep at all (so none of length ≥ 5), invokes the
backend exactly once, and re-raises the error — the configured delay table
is not overridden by the hint; it is not consulted either, because
`RateLimitError` is classified non-retryable. -/
theorem ratelimit_hint_counterexample :
    (executeWithRetry pollNonRetryable pollDefaultRetryConfig rlOp).sleeps = [] ∧
    (executeWithRetry pollNonRetryable pollDefaultRetryConfig rlOp).invocations = 1 ∧
    (executeWithRetry pollNonRetryable pollDefaultRetryConfig rlOp).result =
      Except.error (RateLimitError (some 5)) := by
  refine ⟨by decide, by decide, by decide⟩

/-- C5 (amended): when a backend raises `RateLimitError(retryAfter = 5)`
on its first attempt, both retry engines classify it non-retryable (an
`APIError` whose message carries no retryable marker), so — for any
configured `maxAttempts ≥ 1` and any delay table — the run ends after one
invocation with no sleep, re-raising the error; the `retryAfter` hint is
never consulted. -/
theorem ratelimit_not_retried (cfg : RetryConfig) (op : Nat → Except VErr (List Nat))
    (hm : 1 ≤ cfg.maxAttempts)
    (hop : op 1 = Except.error (RateLimitError (some 5))) :
    executeWithRetry pollNonRetryable cfg op =
      ⟨Except.error (RateLimitError (some 5)), 1, []⟩ ∧
    executeWithRetry hfNonRetryable cfg op =
      ⟨Except.error (RateLimitError (some 5)), 1, []⟩ :=
  ⟨retry_once_of_nonRetryable pollNonRetryable cfg op (RateLimitError (some 5)) hm hop (by decide),
   retry_once_of_nonRetryable hfNonRetryable cfg op (RateLimitError (some 5)) hm hop (by decide)⟩

/-- C5 witness: the amended behavior at the Pollinations default
configuration and the concrete backend `rlOp`. -/
theorem ratelimit_not_retried_witness :
    executeWithRetry pollNonRetryable pollDefaultRetryConfig rlOp =
      ⟨Except.error (RateLimitError (some 5)), 1, []⟩ ∧
    executeWithRetry hfNonRetryable pollDefaultRetryConfig rlOp =
      ⟨Except.error (RateLimitError (some 5)), 1, []⟩ :=
  ratelimit_not_retried pollDefaultRetryConfig rlOp (by decide) (by decide)

/-- C6: for the unauthenticated Pollinations backend, a 200-status
response whose body is absent or empty makes the attempt fail with the
ClientError-class (`APIError`) "no image data" classification rather than
succeed, and a successful attempt never returns empty bytes. -/
theorem poll_no_empty_success :
    (∀ r : HttpResponse, r.status = 200 → (r.data = none ∨ r.data = some []) →
      pollHandleResponse r = Except.error (APIError "No image data received from API")) ∧
    (APIError "No image data received from API").isAPIError = true ∧
    (∀ (r : HttpResponse) (d : List Nat), pollHandleResponse r = Except.ok d → d ≠ []) := by
  refine ⟨?_, by decide, ?_⟩
  · intro r h1 h2
    rcases h2 with h2 | h2 <;> simp [pollHandleResponse, h1, h2]
  · intro r d h
    by_cases hs : r.status ≠ 200
    · simp [pollHandleResponse, hs] at h
    · rcases hd : r.data with _ | d'
      · simp [pollHandleResponse, hs, hd] at h
      · by_cases hl : d'.length = 0
        · simp [pollHandleResponse, hs, hd, hl] at h
        · simp only [pollHandleResponse, hs, if_false, hd, hl, if_neg, not_false_iff,
            Except.ok.injEq] at h
          subst h
          intro hnil
          subst hnil
          simp at hl

/-- C6 witness: the empty-body 200 response fails with "no image data",
and a one-byte body succeeds with non-empty bytes. -/
theorem poll_no_empty_success_witness :
    pollHandleResponse { status := 200, data := some [] } =
      Except.error (APIError "No image data received from API") ∧
    ([5] : List Nat) ≠ [] :=
  ⟨poll_no_empty_success.1 { status := 200, data := some [] } rfl (Or.inr rfl),
   poll_no_empty_success.2.2 { status := 200, data := some [5] } [5] rfl⟩

/-- A mock state whose attempt threshold is already met on the first call
(`maxAttempts = 1`) though the configured mode is `server`. -/
def mockThresholdState : MockState :=
  { failureMode := FailureMode.server
    failureRate := 0
    maxAttempts := 1
    attemptCounts := fun _ => 0 }

/-- A backend failing with a retryable connection error on its first
invocation only. -/
def connOnceOp : Nat → Except VErr (List Nat) :=
  fun a => if a = 1 then Except.error (ConnectionError) else Except.ok [1]

/-- Whatever branch `simulateNetworkFailure` takes, its post-state is
either the input state (mode `'none'`) or the input state with exactly the
invocation's fingerprint counter bumped by one. -/
theorem simulate_snd (o : SimOracle) (cid : Nat) (q : String) (s : MockState) :
    (simulateNetworkFailure o cid q s).2 = s ∨
    (simulateNetworkFailure o cid q s).2 =
      { s with attemptCounts :=
          (Function.update s.attemptCounts (requestKey cid q) (s.attemptCounts (requestKey cid q) + 1)) } := by
  by_cases h1 : s.failureMode = FailureMode.nofail
  · left
    simp [simulateNetworkFailure, h1]
  · right
    simp only [simulateNetworkFailure, h1, if_false]
    split_ifs <;> first | rfl | (split <;> rfl)

/-- C7: with `failureMode = 'connection'` and attempt threshold 3, three
sequential `generateMockImage` calls for the fingerprint `(7, "Q")` raise
a connection-class error twice and succeed on the third, writing the
non-empty placeholder image; and once a fingerprint's counter has reached
the threshold, `simulateNetworkFailure` succeeds unconditionally,
whatever the configured mode and random draws. -/
theorem mock_connection_three_calls :
    mockRun1.result =
      Except.error (ConnectionError "Mock: Could not connect to image generation service") ∧
    mockRun2.result =
      Except.error (ConnectionError "Mock: Could not connect to image generation service") ∧
    mockRun3.result = Except.ok "/tmp/out/card-007.png" ∧
    mockRun3.written = some ("/tmp/out/card-007.png", mockImageData) ∧
    0 < mockImageData.length ∧
    (∀ (s : MockState) (o : SimOracle) (cid : Nat) (q : String),
      effMaxAttempts s ≤ s.attemptCounts (requestKey cid q) + 1 →
      (simulateNetworkFailure o cid q s).1 = Except.ok ()) := by
  refine ⟨by decide, by decide, by decide, by decide, by decide, ?_⟩
  intro s o cid q h
  by_cases h1 : s.failureMode = FailureMode.nofail
  · simp [simulateNetworkFailure, h1]
  · simp [simulateNetworkFailure, h1, h]

/-- C7 witness: a state already at its threshold succeeds immediately even
in `server` mode. -/
theorem mock_connection_three_calls_witness :
    (simulateNetworkFailure mockOracle 1 "x" mockThresholdState).1 = Except.ok () :=
  mock_connection_three_calls.2.2.2.2.2 mockThresholdState mockOracle 1 "x" (by decide)

/-- C8 counterexample: in mock mode the facade does not route the mock
backend through any retry engine.  The first invocation raises a
connection error that every classification marks retryable (both the
spec taxonomy and both engines would retry it), yet the facade invokes the
backend exactly once and immediately returns a failed result. -/
theorem facade_mock_no_retry_counterexample :
    specRetryable (ConnectionError "Mock: Could not connect to image generation service") = true ∧
    pollNonRetryable (ConnectionError "Mock: Could not connect to image generation service") = false ∧
    hfNonRetryable (ConnectionError "Mock: Could not connect to image generation service") = false ∧
    (facadeGenerateImage Mode.mock pollDefaultRetryConfig mockOkOp mockOracle mockConnState
        7 "Q" "A" "/tmp/out").backendInvocations = 1 ∧
    (facadeGenerateImage Mode.mock pollDefaultRetryConfig mockOkOp mockOracle mockConnState
        7 "Q" "A" "/tmp/out").result.success = false := by
  refine ⟨by decide, by decide, by decide, by decide, by decide⟩

/-- C8 (amended): in the `huggingface` and `pollinations` modes the
facade's `generateImage` invokes the backend through the retry engine — an
engine-retryable error on the first invocation leads to at least a second
invocation whenever `maxAttempts ≥ 2` — but in `mock` mode the facade
calls the mock backend directly, exactly once per call, so a retryable
error on the first invocation is immediately converted to a failed result. -/
theorem facade_retry_wiring (cfg : RetryConfig) (op : Nat → Except VErr (List Nat))
    (o : SimOracle) (s : MockState) (cardId : Nat)
    (question answer outputDir : String) (e : VErr) :
    (facadeGenerateImage Mode.mock cfg op o s cardId question answer outputDir).backendInvocations
      = 1 ∧
    (2 ≤ cfg.maxAttempts → op 1 = Except.error e → pollNonRetryable e = false →
      2 ≤ (facadeGenerateImage Mode.pollinations cfg op o s cardId question answer
            outputDir).backendInvocations) ∧
    (2 ≤ cfg.maxAttempts → op 1 = Except.error e → hfNonRetryable e = false →
      2 ≤ (facadeGenerateImage Mode.huggingface cfg op o s cardId question answer
            outputDir).backendInvocations) := by
  refine ⟨?_, ?_, ?_⟩
  · rcases hg : generateMockImage o cardId question outputDir s with ⟨res, w, st⟩
    cases res <;> simp [facadeGenerateImage, hg]
  · intro h1 h2 h3
    have hge := retry_retries_after_retryable pollNonRetryable cfg op e h1 h2 h3
    rcases hr : executeWithRetry pollNonRetryable cfg op with ⟨res, n, sl⟩
    rw [hr] at hge
    simp only at hge
    cases res <;> simpa [facadeGenerateImage, hr] using hge
  · intro h1 h2 h3
    have hge := retry_retries_after_retryable hfNonRetryable cfg op e h1 h2 h3
    rcases hr : executeWithRetry hfNonRetryable cfg op with ⟨res, n, sl⟩
    rw [hr] at hge
    simp only at hge
    cases res <;> simpa [facadeGenerateImage, hr] using hge

/-- C8 witness: in pollinations mode, a first-attempt connection failure
with `maxAttempts = 3` leads to a second backend invocation within the
same facade call. -/
theorem facade_retry_wiring_witness :
    2 ≤ (facadeGenerateImage Mode.pollinations pollDefaultRetryConfig connOnceOp mockOracle
          mockConnState 7 "Q" "A" "/tmp/out").backendInvocations :=
  (facade_retry_wiring pollDefaultRetryConfig connOnceOp mockOracle mockConnState
      7 "Q" "A" "/tmp/out" (ConnectionError)).2.1 (by decide) (by decide) (by decide)

/-- C9 counterexample: with an empty constructor key, `getApiKey` *does*
read the `GEMINI_API_KEY` environment variable — two runs differing only
in that variable behave differently. -/
theorem apikey_env_counterexample :
    getApiKey "" (some "env-key") = Except.ok "env-key" ∧
    getApiKey "" none = Except.error (APIError "No API key provided") ∧
    getApiKey "" (some "env-key") ≠ getApiKey "" none := by
  refine ⟨by decide, by decide, by decide⟩

/-- C9 (amended): the authenticated client uses the constructor-supplied
API key whenever it is non-empty — the environment variable is then
ignored and runs differing only in it behave identically — but when the
constructor key is empty, `getApiKey` falls back to the `GEMINI_API_KEY`
environment variable, raising `APIError('No API key provided')` only when
that is also absent or empty. -/
theorem apikey_resolution (k : String) (env envAlt : Option String) (e : String) :
    (k ≠ "" → getApiKey k env = getApiKey k envAlt) ∧
    (getApiKey "" (some e) =
      if e = "" then Except.error (APIError "No API key provided") else Except.ok e) ∧
    getApiKey "" none = Except.error (APIError "No API key provided") := by
  refine ⟨?_, ?_, rfl⟩
  · intro h
    simp [getApiKey, h]
  · by_cases he : e = "" <;> simp [getApiKey, he]

/-- C9 witness: a non-empty constructor key gives the same outcome with
and without the environment variable. -/
theorem apikey_resolution_witness :
    getApiKey "ctor-key" (some "env-key") = getApiKey "ctor-key" none :=
  (apikey_resolution "ctor-key" (some "env-key") none "").1 (by decide)

/-- C10: `setFailureMode` changes only the configured failure mode and,
when given, the failure rate: every fingerprint's attempt counter (and the
threshold) is untouched; the counters are cleared by `resetAttempts`, and
a `generate` invocation never clears a counter either — it can only grow
the invoked fingerprint's counter. -/
theorem setFailureMode_frame (s : MockState) (mode : FailureMode) (rate : Option Rat)
    (k : String) (o : SimOracle) (cid : Nat) (q : String) :
    (setFailureMode s mode rate).attemptCounts = s.attemptCounts ∧
    (setFailureMode s mode rate).maxAttempts = s.maxAttempts ∧
    (setFailureMode s mode rate).failureMode = mode ∧
    (rate = none → (setFailureMode s mode rate).failureRate = s.failureRate) ∧
    (∀ r, rate = some r → (setFailureMode s mode rate).failureRate = r) ∧
    (resetAttempts s).attemptCounts k = 0 ∧
    s.attemptCounts k ≤ ((simulateNetworkFailure o cid q s).2).attemptCounts k := by
  refine ⟨rfl, rfl, rfl, ?_, ?_, rfl, ?_⟩
  · rintro rfl
    rfl
  · rintro r rfl
    rfl
  · rcases simulate_snd o cid q s with h | h <;> rw [h]
    by_cases hk : k = requestKey cid q
    · subst hk
      simp
    · simp [Function.update_apply, hk]

/-- C10 witness: the frame conditions at a concrete state. -/
theorem setFailureMode_frame_witness :
    (setFailureMode mockConnState FailureMode.random none).failureRate =
      mockConnState.failureRate ∧
    (setFailureMode mockConnState FailureMode.random (some 1)).failureRate = 1 :=
  ⟨(setFailureMode_frame mockConnState FailureMode.random none "k" mockOracle 1 "q").2.2.2.1 rfl,
   (setFailureMode_frame mockConnState FailureMode.random (some 1) "k" mockOracle 1
      "q").2.2.2.2.1 1 rfl⟩

end Vincent
